import Mathlib

/-!
Shallow embedding of `src/sensor_triggered_light.ino` (an Arduino sketch
controlling a light from a PIR motion sensor and an ultrasonic range finder)
together with proofs about its per-pass behaviour.

Modelling conventions:
* Arduino `unsigned long` is 32-bit; all timestamp arithmetic is carried out
  on `Nat` reduced modulo `2^32` (`M32`), with `usub32` playing the role of
  C unsigned subtraction `a - b`.
* One execution of `loop()` is the function `tick`.  The pin reads and the
  clock samples of one pass are gathered in `Input`: all `millis()` calls of
  the pass are modelled as the single sample `nowMs` and both `micros()`
  calls as `nowUs` (the pass takes well under a millisecond).  A clock sample
  is the `uint32` value the clock function returned.
* The `static` locals of `loop()` (`bodyTime`, `pirWarm`, `pingState`,
  `echoTime`, `pongState`) form the `State` record; `digitalWrite` calls to
  the light pin and the debug LED pin are the `Output` record.
-/

namespace SensorLight

/-- Modulus of Arduino `unsigned long` (32-bit) arithmetic. -/
def M32 : Nat := 4294967296

/-- C unsigned 32-bit subtraction `a - b`: wraparound-safe difference
`(a - b) mod 2^32`. -/
def usub32 (a b : Nat) : Nat := (a % M32 + (M32 - b % M32)) % M32

/-- Line 75: `#define lightInterval 90` (light timeout in seconds). -/
def lightInterval : Nat := 90

/-- Line 78: `#define pingInches 24` (minimum trigger distance, inches). -/
def pingInches : Nat := 24

/-- The hold interval `1000UL * lightInterval` used at lines 100 and 112. -/
def holdIntervalMillis : Nat := 1000 * lightInterval

/-- Line 148: the PIR sensor is ignored while `millis() <= 60000`. -/
def warmupDurationMillis : Nat := 60000

/-- Line 235: the echo-length threshold `2L * 74 * pingInches` in
microseconds. -/
def thresholdMicroseconds : Nat := 2 * 74 * pingInches

/-- The `static` locals of `loop()`:
`bodyTime` (line 90), `pirWarm` (line 147), `pingState`, `echoTime`,
`pongState` (lines 209-211).  `pingState` is a byte holding 0, 1 or 2;
`pirWarm` and `pongState` are bytes used as booleans. -/
structure State where
  bodyTime : Nat
  pirWarm : Bool
  pingState : Nat
  echoTime : Nat
  pongState : Bool
deriving DecidableEq

/-- The environment of one pass of `loop()`: the clock samples and the two
input pins. -/
structure Input where
  nowMs : Nat
  nowUs : Nat
  pirHigh : Bool
  echoHigh : Bool
deriving DecidableEq

/-- The outputs written during one pass: the light pin (line 101/104) and the
debug LED (line 255). -/
structure Output where
  lightHigh : Bool
  ledHigh : Bool
deriving DecidableEq

/-- Line 90: `static unsigned long bodyTime = 0 - 1000UL * lightInterval;`
together with the zero initialisation of the other statics. -/
def initState : State :=
  { bodyTime := usub32 0 holdIntervalMillis
    pirWarm := false
    pingState := 0
    echoTime := 0
    pongState := false }

/-- Line 100: the light decision
`(millis() - bodyTime) < (1000UL * lightInterval)`, generalised over the
hold interval. -/
def isLightOnGen (nowMs bodyTime holdMs : Nat) : Bool :=
  decide (usub32 nowMs bodyTime < holdMs)

/-- Line 100 with the sketch's hold interval. -/
def isLightOn (nowMs bodyTime : Nat) : Bool :=
  isLightOnGen nowMs bodyTime holdIntervalMillis

/-- Lines 100-113: drive the light and, when it is off, re-arm
`bodyTime = millis() - 1000UL * lightInterval` (line 112).  Returns the
light level and the resulting `bodyTime`. -/
def holdStep (bodyTime nowMs : Nat) : Bool × Nat :=
  if isLightOn nowMs bodyTime then (true, bodyTime)
  else (false, usub32 nowMs holdIntervalMillis)

/-- Lines 147-150: `if ((! pirWarm) && (millis() > 60000)) pirWarm = 1;`. -/
def pirLatch (warm : Bool) (nowMs : Nat) : Bool :=
  if !warm && decide (nowMs > warmupDurationMillis) then true else warm

/-- Lines 147-159 as one operation: update the warm-up latch, then gate the
raw PIR pin through it (`pirWarm && digitalRead(pirPin)`, line 152).
Returns the new latch and whether a motion detection fires this pass. -/
def pirPoll (warm raw : Bool) (nowMs : Nat) : Bool × Bool :=
  let w := pirLatch warm nowMs
  (w, w && raw)

/-- Lines 213-243: the `switch (pingState)` ultrasonic state machine.
Arguments are the three statics plus the pass's `micros()` sample and echo
pin; the result is the new `pingState`, `echoTime`, `pongState`, and the
detection outcome computed this pass (`some det` exactly on the case-2
falling-edge branch, lines 233-241, else `none`). -/
def pingStep (pingState echoTime : Nat) (pong : Bool) (nowUs : Nat)
    (echoHigh : Bool) : Nat × Nat × Bool × Option Bool :=
  match pingState with
  | 0 => (1, echoTime, pong, none)
  | 1 =>
      if echoHigh then (2, nowUs % M32, pong, none)
      else (1, echoTime, pong, none)
  | 2 =>
      if !echoHigh then
        let det : Bool := decide (usub32 nowUs echoTime < thresholdMicroseconds)
        (0, echoTime, det, some det)
      else (2, echoTime, pong, none)
  | _ => (pingState, echoTime, pong, none)

/-- The PIR warm-up latch after the pass (it is updated at line 149 before
being read at line 152). -/
def pirWarmAfter (s : State) (i : Input) : Bool := pirLatch s.pirWarm i.nowMs

/-- Line 152: whether the PIR branch fires this pass. -/
def pirDetect (s : State) (i : Input) : Bool := pirWarmAfter s i && i.pirHigh

/-- The ultrasonic statics after the `switch` of this pass. -/
def pingAfter (s : State) (i : Input) : Nat × Nat × Bool × Option Bool :=
  pingStep s.pingState s.echoTime s.pongState i.nowUs i.echoHigh

/-- The value of `pongState` after the `switch`, as read at line 245. -/
def pongAfter (s : State) (i : Input) : Bool := (pingAfter s i).2.2.1

/-- The detection outcome computed this pass, if any (lines 233-241). -/
def pingEvent (s : State) (i : Input) : Option Bool := (pingAfter s i).2.2.2

/-- Whether this pass takes the case-2 falling-edge branch (lines 233-241),
i.e. completes a ping cycle. -/
def completes (s : State) (i : Input) : Bool :=
  decide (s.pingState = 2) && !i.echoHigh

/-- The echo length `micros() - echoTime` computed at line 235. -/
def echoElapsed (s : State) (i : Input) : Nat := usub32 i.nowUs s.echoTime

/-- One pass of `loop()` (lines 86-258).  `bodyTime` is assigned by the
re-arm (line 112), the PIR branch (line 153) and the `pongState` branch
(line 246), in that program order, each later assignment overriding the
earlier; the PIR and pong branches both assign `millis()`. -/
def tick (s : State) (i : Input) : State × Output :=
  ({ bodyTime :=
       if pongAfter s i then i.nowMs % M32
       else if pirDetect s i then i.nowMs % M32
       else (holdStep s.bodyTime i.nowMs).2
     pirWarm := pirWarmAfter s i
     pingState := (pingAfter s i).1
     echoTime := (pingAfter s i).2.1
     pongState := pongAfter s i },
   { lightHigh := (holdStep s.bodyTime i.nowMs).1
     ledHigh := pirDetect s i || pongAfter s i })

/-- Iterated passes of `loop()`. -/
def run (s : State) (l : List Input) : State :=
  l.foldl (fun s i => (tick s i).1) s

/-- Whether either sensor branch fires this pass. -/
def anyDetect (s : State) (i : Input) : Bool :=
  pirDetect s i || pongAfter s i

/-- A pass sequence starting at time `t` in which no sensor branch ever
fires and consecutive passes are less than `2^32 - holdIntervalMillis`
milliseconds apart. -/
def quiet : Nat → State → List Input → Bool
  | _, _, [] => true
  | t, s, i :: l =>
      !anyDetect s i &&
        decide (usub32 i.nowMs t < M32 - holdIntervalMillis) &&
        quiet i.nowMs (tick s i).1 l

/-- The light output stays low throughout a pass sequence. -/
def lightsOff : State → List Input → Bool
  | _, [] => true
  | s, i :: l => !(tick s i).2.lightHigh && lightsOff (tick s i).1 l

/-! Helper lemmas about the 32-bit timestamp arithmetic and the pass
structure. -/

lemma usub32_elapsed (a d : Nat) : usub32 ((a + d) % M32) a = d % M32 := by
  simp only [usub32, M32]
  omega

lemma usub32_mod_right (a b : Nat) : usub32 a (b % M32) = usub32 a b := by
  simp only [usub32, M32]
  omega

lemma holdStep_fst (b n : Nat) : (holdStep b n).1 = isLightOn n b := by
  by_cases h : isLightOn n b <;> simp [holdStep, h]

lemma holdStep_snd_off (b n : Nat) (h : isLightOn n b = false) :
    (holdStep b n).2 = usub32 n holdIntervalMillis := by
  simp [holdStep, h]

lemma pongAfter_eq (s : State) (i : Input) :
    pongAfter s i =
      if completes s i then decide (echoElapsed s i < thresholdMicroseconds)
      else s.pongState := by
  obtain ⟨bt, w, ps, et, pg⟩ := s
  obtain ⟨ms, us, ph, eh⟩ := i
  rcases ps with _ | _ | _ | ps <;> cases eh <;>
    simp [pongAfter, pingAfter, pingStep, completes, echoElapsed]

lemma pingEvent_eq (s : State) (i : Input) :
    pingEvent s i =
      if completes s i then some (decide (echoElapsed s i < thresholdMicroseconds))
      else none := by
  obtain ⟨bt, w, ps, et, pg⟩ := s
  obtain ⟨ms, us, ph, eh⟩ := i
  rcases ps with _ | _ | _ | ps <;> cases eh <;>
    simp [pingEvent, pingAfter, pingStep, completes, echoElapsed]

lemma tick_bodyTime (s : State) (i : Input) :
    (tick s i).1.bodyTime =
      if pirDetect s i || pongAfter s i then i.nowMs % M32
      else (holdStep s.bodyTime i.nowMs).2 := by
  cases hp : pirDetect s i <;> cases hq : pongAfter s i <;>
    simp [tick, hp, hq]

lemma tick_lightHigh (s : State) (i : Input) :
    (tick s i).2.lightHigh = isLightOn i.nowMs s.bodyTime := by
  simp [tick, holdStep_fst]

lemma tick_pongState (s : State) (i : Input) :
    (tick s i).1.pongState = pongAfter s i := rfl

lemma tick_pingState (s : State) (i : Input) :
    (tick s i).1.pingState = (pingAfter s i).1 := rfl

lemma isLightOn_rearmed (t now : Nat)
    (h : usub32 now t < M32 - holdIntervalMillis) :
    isLightOn now (usub32 t holdIntervalMillis) = false := by
  simp only [isLightOn, isLightOnGen, usub32, holdIntervalMillis, lightInterval,
    M32, decide_eq_false_iff_not, not_lt] at *
  omega

lemma rearm_no_reactivation (now e : Nat)
    (he : e < M32 - holdIntervalMillis) :
    isLightOn ((now % M32 + e) % M32) (usub32 now holdIntervalMillis) = false := by
  simp only [isLightOn, isLightOnGen, usub32, holdIntervalMillis, lightInterval,
    M32, decide_eq_false_iff_not, not_lt] at *
  omega

lemma quiet_lightsOff (l : List Input) :
    ∀ t s, s.bodyTime = usub32 t holdIntervalMillis →
      quiet t s l = true → lightsOff s l = true := by
  induction l with
  | nil => intro t s _ _; rfl
  | cons i l ih =>
      intro t s hbt hq
      simp only [quiet, Bool.and_eq_true, Bool.not_eq_true',
        decide_eq_true_eq] at hq
      obtain ⟨⟨hnd, hadv⟩, hq⟩ := hq
      have hoff : isLightOn i.nowMs s.bodyTime = false := by
        rw [hbt]; exact isLightOn_rearmed t i.nowMs hadv
      have hnd2 : (pirDetect s i || pongAfter s i) = false := hnd
      have hbt2 : (tick s i).1.bodyTime = usub32 i.nowMs holdIntervalMillis := by
        rw [tick_bodyTime, hnd2, if_neg (by simp), holdStep_snd_off _ _ hoff]
      simp only [lightsOff, Bool.and_eq_true, Bool.not_eq_true']
      exact ⟨by rw [tick_lightHigh]; exact hoff, ih i.nowMs (tick s i).1 hbt2 hq⟩

/-! Claim theorems. -/

/-- Claim C1: the light-on decision is true iff the wraparound-safe unsigned
difference `(now - lastDetection) mod 2^32` is strictly below the hold
interval; it is false at exact equality; and for a true elapsed time
`d < 2^32` since the detection, even when the timestamps straddle the wrap
boundary, the decision is exactly `d < holdIntervalMillis`. -/
theorem C1_hold_boundary (now lastDetection hold d : Nat) (hd : d < M32) :
    (isLightOnGen now lastDetection hold = true ↔
      usub32 now lastDetection < hold) ∧
    (usub32 now lastDetection = hold →
      isLightOnGen now lastDetection hold = false) ∧
    (isLightOnGen ((lastDetection + d) % M32) lastDetection hold =
      decide (d < hold)) ∧
    (isLightOn ((lastDetection + d) % M32) lastDetection =
      decide (d < holdIntervalMillis)) := by
  refine ⟨by simp [isLightOnGen], fun h => by simp [isLightOnGen, h], ?_, ?_⟩
  · rw [isLightOnGen, usub32_elapsed, Nat.mod_eq_of_lt hd]
  · rw [isLightOn, isLightOnGen, usub32_elapsed, Nat.mod_eq_of_lt hd]

/-- Witness for C1 at a wrap-straddling input: `lastDetection = 2^32 - 5000`
and a true elapsed time of 10000 ms give `now = 5000` (naive subtraction
would be negative) and the light is on; elapsed exactly the hold interval
gives light off. -/
theorem C1_hold_boundary_witness :
    isLightOn ((M32 - 5000 + 10000) % M32) (M32 - 5000) = true ∧
    isLightOn ((M32 - 5000 + holdIntervalMillis) % M32) (M32 - 5000) = false := by
  constructor
  · rw [(C1_hold_boundary 0 (M32 - 5000) 0 10000 (by decide)).2.2.2]; decide
  · rw [(C1_hold_boundary 0 (M32 - 5000) 0 holdIntervalMillis
      (by decide)).2.2.2]; decide

/-- Claim C2: whenever the light decision of a pass is false, the pass
re-arms `bodyTime` to exactly `now - holdIntervalMillis` (mod 2^32); if no
sensor branch fires in the same pass that is its end-of-pass value; and from
the re-armed value no later `now` (any true advance below the wrap margin)
can turn the light back on without a new detection. -/
theorem C2_rearm_clamp (s : State) (i : Input)
    (hoff : (holdStep s.bodyTime i.nowMs).1 = false) :
    ((holdStep s.bodyTime i.nowMs).2 = usub32 i.nowMs holdIntervalMillis) ∧
    (pirDetect s i = false → pongAfter s i = false →
      (tick s i).1.bodyTime = usub32 i.nowMs holdIntervalMillis) ∧
    (∀ e, e < M32 - holdIntervalMillis →
      isLightOn ((i.nowMs % M32 + e) % M32)
        (usub32 i.nowMs holdIntervalMillis) = false) := by
  have hl : isLightOn i.nowMs s.bodyTime = false := by
    rw [← holdStep_fst]; exact hoff
  refine ⟨holdStep_snd_off _ _ hl, fun hp hq => ?_,
    fun e he => rearm_no_reactivation i.nowMs e he⟩
  rw [tick_bodyTime, hp, hq]
  simpa using holdStep_snd_off _ _ hl

/-- Witness for C2: from `bodyTime = 0` at `now = 90000` the light is off,
the pass re-arms `bodyTime` to `90000 - 90000 = 0`, and 50000 ms later the
light is still off. -/
theorem C2_rearm_clamp_witness :
    (tick ⟨0, false, 0, 0, false⟩ ⟨90000, 0, false, false⟩).1.bodyTime =
      usub32 90000 holdIntervalMillis ∧
    isLightOn ((90000 % M32 + 50000) % M32)
      (usub32 90000 holdIntervalMillis) = false := by
  have h := C2_rearm_clamp ⟨0, false, 0, 0, false⟩ ⟨90000, 0, false, false⟩
    (by decide)
  exact ⟨h.2.1 (by decide) (by decide), h.2.2 50000 (by decide)⟩

/-- Claim C6: the threshold is `2 * 74 * pingInches = 3552` microseconds with
`pingInches = 24`; on the MeasuringEcho-to-Idle branch the outcome is
`elapsed < thresholdMicroseconds` with `elapsed` the modular difference of
the microsecond samples (which recovers the true echo duration); an echo of
3404 us yields detection true and one of 3700 us yields false. -/
theorem C6_threshold (s : State) (i : Input) (start d : Nat)
    (hs : s.pingState = 2) (he : i.echoHigh = false) :
    (pingInches = 24 ∧ thresholdMicroseconds = 2 * 74 * pingInches ∧
      thresholdMicroseconds = 3552) ∧
    (pingEvent s i =
      some (decide (usub32 i.nowUs s.echoTime < thresholdMicroseconds))) ∧
    (usub32 ((start + d) % M32) start = d % M32) ∧
    (pingEvent ⟨0, false, 2, 0, false⟩ ⟨0, 3404, false, false⟩ = some true) ∧
    (pingEvent ⟨0, false, 2, 0, false⟩ ⟨0, 3700, false, false⟩ = some false) := by
  refine ⟨⟨rfl, rfl, rfl⟩, ?_, usub32_elapsed start d, by decide, by decide⟩
  rw [pingEvent_eq]
  simp [completes, echoElapsed, hs, he]

/-- Witness for C6: a completed cycle with echo start 200 us and echo end
1300 us reports detection true. -/
theorem C6_threshold_witness :
    pingEvent ⟨0, false, 2, 200, false⟩ ⟨30, 1300, false, false⟩ = some true := by
  rw [(C6_threshold ⟨0, false, 2, 200, false⟩ ⟨30, 1300, false, false⟩ 0 0
    rfl rfl).2.1]
  decide

/-- Claim C7: with the warm-up latch unset the poll returns false for every
`now <= 60000` regardless of the raw pin, and for `now > 60000` it sets the
latch and returns the raw pin; once set the latch stays set and the poll
returns the raw pin unchanged. -/
theorem C7_warmup_gate (raw : Bool) (now : Nat) :
    (warmupDurationMillis = 60000) ∧
    (now ≤ warmupDurationMillis → pirPoll false raw now = (false, false)) ∧
    (now > warmupDurationMillis → pirPoll false raw now = (true, raw)) ∧
    (pirPoll true raw now = (true, raw)) := by
  refine ⟨rfl, fun h => ?_, fun h => ?_, by simp [pirPoll, pirLatch]⟩
  · have : ¬ now > warmupDurationMillis := not_lt.mpr h
    simp [pirPoll, pirLatch, this]
  · simp [pirPoll, pirLatch, h]

/-- Witness for C7: at `now = 60000` the poll ignores a high pin; at
`now = 60001` it reports it. -/
theorem C7_warmup_gate_witness :
    pirPoll false true 60000 = (false, false) ∧
    pirPoll false true 60001 = (true, true) := by
  exact ⟨(C7_warmup_gate true 60000).2.1 (by decide),
    (C7_warmup_gate true 60001).2.2.1 (by decide)⟩

/-- Claim C3 counterexample: after a completed near cycle at `now = 30`
(which sets the persistent `pongState`), the next pass (`now = 40`) computes
no detection outcome (`pingEvent = none`, the cycle does not complete) and
the PIR branch does not fire, yet the hold state is still updated to 40 —
so the detection outcome is stored across passes and keeps triggering hold
updates outside the completion pass, contrary to the claim. -/
theorem C3_transient_counterexample :
    (run initState [⟨10, 100, false, false⟩, ⟨20, 200, false, true⟩,
        ⟨30, 1300, false, false⟩]).bodyTime = 30 ∧
    pingEvent (run initState [⟨10, 100, false, false⟩, ⟨20, 200, false, true⟩,
        ⟨30, 1300, false, false⟩]) ⟨40, 1400, false, false⟩ = none ∧
    pirDetect (run initState [⟨10, 100, false, false⟩, ⟨20, 200, false, true⟩,
        ⟨30, 1300, false, false⟩]) ⟨40, 1400, false, false⟩ = false ∧
    (tick (run initState [⟨10, 100, false, false⟩, ⟨20, 200, false, true⟩,
        ⟨30, 1300, false, false⟩]) ⟨40, 1400, false, false⟩).1.bodyTime = 40 := by
  decide

/-- Claim C3 as amended: the detection outcome is computed and emitted only
on the MeasuringEcho-to-Idle branch (once per completed cycle, `none` on
every other pass), but it is stored across passes in the persistent
`pongState` flag — a pass that completes no cycle leaves `pongState`
unchanged, and while the stored flag is high every pass updates the hold
state to the current time, not only the completion pass. -/
theorem C3_event_latched (s : State) (i : Input) :
    (completes s i = false →
      pingEvent s i = none ∧ (tick s i).1.pongState = s.pongState) ∧
    (completes s i = true →
      pingEvent s i =
        some (decide (echoElapsed s i < thresholdMicroseconds)) ∧
      (tick s i).1.pongState =
        decide (echoElapsed s i < thresholdMicroseconds)) ∧
    (s.pongState = true → completes s i = false →
      (tick s i).1.bodyTime = i.nowMs % M32) := by
  refine ⟨fun h => ?_, fun h => ?_, fun hp h => ?_⟩
  · rw [pingEvent_eq, h, tick_pongState, pongAfter_eq, h]
    simp
  · rw [pingEvent_eq, h, tick_pongState, pongAfter_eq, h]
    simp
  · have hq : pongAfter s i = true := by rw [pongAfter_eq, h]; simpa using hp
    rw [tick_bodyTime, hq, Bool.or_true, if_pos rfl]

/-- Witness for C3's amended statement: a non-completing pass with the flag
latched high leaves the flag high, emits nothing, and still updates the hold
state; a completing pass emits the comparison outcome. -/
theorem C3_event_latched_witness :
    pingEvent ⟨30, false, 0, 200, true⟩ ⟨40, 1400, false, false⟩ = none ∧
    (tick ⟨30, false, 0, 200, true⟩ ⟨40, 1400, false, false⟩).1.pongState = true ∧
    (tick ⟨30, false, 0, 200, true⟩ ⟨40, 1400, false, false⟩).1.bodyTime = 40 % M32 ∧
    pingEvent ⟨0, false, 2, 200, false⟩ ⟨30, 1300, false, false⟩ = some true := by
  have h1 := C3_event_latched ⟨30, false, 0, 200, true⟩ ⟨40, 1400, false, false⟩
  have h2 := C3_event_latched ⟨0, false, 2, 200, false⟩ ⟨30, 1300, false, false⟩
  refine ⟨(h1.1 (by decide)).1, ?_, h1.2.2 rfl (by decide), ?_⟩
  · rw [(h1.1 (by decide)).2]
  · rw [(h2.2.1 (by decide)).1]; decide

/-- Claim C4: `pongState` is a persistent flag initialised false; it is
unchanged by any pass that completes no cycle (so before the first completed
cycle the ranging path never touches the hold state — `bodyTime` then comes
only from the PIR branch or the hold step); a completed cycle sets it to the
near/far comparison, a near completion records a detection, and while the
flag is high every subsequent non-completing pass also records
`bodyTime = now`, until a far completion clears it. -/
theorem C4_pong_persistence (s : State) (i : Input) :
    (initState.pongState = false) ∧
    (s.pongState = false → completes s i = false →
      (tick s i).1.pongState = false ∧
      (tick s i).1.bodyTime =
        if pirDetect s i then i.nowMs % M32
        else (holdStep s.bodyTime i.nowMs).2) ∧
    (s.pongState = true → completes s i = false →
      (tick s i).1.pongState = true ∧
      (tick s i).1.bodyTime = i.nowMs % M32) ∧
    (completes s i = true →
      (tick s i).1.pongState =
        decide (echoElapsed s i < thresholdMicroseconds) ∧
      (echoElapsed s i < thresholdMicroseconds →
        (tick s i).1.bodyTime = i.nowMs % M32)) := by
  refine ⟨rfl, fun hp h => ?_, fun hp h => ?_, fun h => ?_⟩
  · have hq : pongAfter s i = false := by rw [pongAfter_eq, h]; simpa using hp
    refine ⟨by rw [tick_pongState, hq], ?_⟩
    rw [tick_bodyTime, hq, Bool.or_false]
  · have hq : pongAfter s i = true := by rw [pongAfter_eq, h]; simpa using hp
    exact ⟨by rw [tick_pongState, hq],
      by rw [tick_bodyTime, hq, Bool.or_true, if_pos rfl]⟩
  · have hq : pongAfter s i = decide (echoElapsed s i < thresholdMicroseconds) := by
      rw [pongAfter_eq, h]; simp
    refine ⟨by rw [tick_pongState, hq], fun hlt => ?_⟩
    rw [tick_bodyTime, hq]
    simp [hlt]

/-- Witness for C4: from the initial state a pass completes nothing and the
flag stays false with the hold step untouched by ranging; with the flag
latched high a non-completing pass records the current time; a completing
far cycle clears the flag. -/
theorem C4_pong_persistence_witness :
    (tick initState ⟨10, 100, false, false⟩).1.pongState = false ∧
    (tick ⟨30, false, 0, 200, true⟩ ⟨40, 1400, false, false⟩).1.bodyTime =
      40 % M32 ∧
    (tick ⟨30, false, 2, 0, true⟩ ⟨50, 5000, false, false⟩).1.pongState =
      decide (echoElapsed ⟨30, false, 2, 0, true⟩ ⟨50, 5000, false, false⟩ <
        thresholdMicroseconds) ∧
    (tick ⟨30, false, 2, 0, false⟩ ⟨50, 1000, false, false⟩).1.bodyTime =
      50 % M32 := by
  refine ⟨((C4_pong_persistence initState ⟨10, 100, false, false⟩).2.1
      rfl (by decide)).1,
    ((C4_pong_persistence ⟨30, false, 0, 200, true⟩
      ⟨40, 1400, false, false⟩).2.2.1 rfl (by decide)).2,
    ((C4_pong_persistence ⟨30, false, 2, 0, true⟩
      ⟨50, 5000, false, false⟩).2.2.2 (by decide)).1,
    ((C4_pong_persistence ⟨30, false, 2, 0, false⟩
      ⟨50, 1000, false, false⟩).2.2.2 (by decide)).2 (by decide)⟩

/-- Claim C5 counterexample: a near cycle completes at `now = 30` (the last
detection outcome ever computed); from `now = 40` on the echo pin never
rises again, so the machine sits in state 1 (WaitingForEcho) forever and the
PIR pin is low throughout — yet at `now = 240040`, far more than the hold
interval after that last outcome, the light is still driven on, because the
latched `pongState` keeps refreshing the hold state every pass.  The system
therefore does not degrade to motion-only operation. -/
theorem C5_stall_counterexample :
    run initState [⟨10, 100, false, false⟩, ⟨20, 200, false, true⟩,
        ⟨30, 1300, false, false⟩, ⟨40, 1400, false, false⟩,
        ⟨80040, 1500, false, false⟩, ⟨160040, 1600, false, false⟩] =
      ⟨160040, true, 1, 200, true⟩ ∧
    holdIntervalMillis ≤ usub32 240040 30 ∧
    (tick ⟨160040, true, 1, 200, true⟩
      ⟨240040, 1700, false, false⟩).2.lightHigh = true ∧
    (tick ⟨160040, true, 1, 200, true⟩
      ⟨240040, 1700, false, false⟩).1.pingState = 1 := by
  decide

/-- Claim C5 as amended: with the echo input stuck, the machine stays in
WaitingForEcho (state 1) or MeasuringEcho (state 2) forever and computes no
further detection outcome, and the PIR branch keeps recording detections
independently; but the ranging half does not necessarily go quiet: the
persistent `pongState` keeps its last value, and while that value is high
the ranging branch refreshes the hold state every pass (keeping the light
on indefinitely) — the system degrades to motion-only operation only when
the latched `pongState` is low. -/
theorem C5_stall_behaviour (s : State) (i : Input) :
    (s.pingState = 1 → i.echoHigh = false →
      (tick s i).1.pingState = 1 ∧ (tick s i).1.pongState = s.pongState ∧
      pingEvent s i = none) ∧
    (s.pingState = 2 → i.echoHigh = true →
      (tick s i).1.pingState = 2 ∧ (tick s i).1.pongState = s.pongState ∧
      pingEvent s i = none) ∧
    (pirDetect s i = true → (tick s i).1.bodyTime = i.nowMs % M32) ∧
    (s.pongState = true → completes s i = false →
      (tick s i).1.bodyTime = i.nowMs % M32) ∧
    (s.pongState = false → completes s i = false → pirDetect s i = false →
      (tick s i).1.bodyTime = (holdStep s.bodyTime i.nowMs).2) := by
  refine ⟨fun hs he => ?_, fun hs he => ?_, fun hd => ?_, fun hp h => ?_,
    fun hp h hd => ?_⟩
  · have hc : completes s i = false := by simp [completes, hs]
    refine ⟨?_, by rw [tick_pongState, pongAfter_eq, hc]; simp,
      by rw [pingEvent_eq, hc]; simp⟩
    rw [tick_pingState]
    obtain ⟨bt, w, ps, et, pg⟩ := s
    simp only at hs
    subst hs
    simp [pingAfter, pingStep, he]
  · have hc : completes s i = false := by simp [completes, hs, he]
    refine ⟨?_, by rw [tick_pongState, pongAfter_eq, hc]; simp,
      by rw [pingEvent_eq, hc]; simp⟩
    rw [tick_pingState]
    obtain ⟨bt, w, ps, et, pg⟩ := s
    simp only at hs
    subst hs
    simp [pingAfter, pingStep, he]
  · rw [tick_bodyTime, hd, Bool.true_or, if_pos rfl]
  · have hq : pongAfter s i = true := by rw [pongAfter_eq, h]; simpa using hp
    rw [tick_bodyTime, hq, Bool.or_true, if_pos rfl]
  · have hq : pongAfter s i = false := by rw [pongAfter_eq, h]; simpa using hp
    rw [tick_bodyTime, hq, hd]
    simp

/-- Witness for C5's amended statement: a stalled pass in state 1 with the
flag high still refreshes the hold state; a stalled pass in state 2 with the
flag low and a firing PIR records motion; a stalled quiet pass leaves the
hold step's value. -/
theorem C5_stall_behaviour_witness :
    (tick ⟨160040, true, 1, 200, true⟩
      ⟨240040, 1700, false, false⟩).1.pingState = 1 ∧
    (tick ⟨160040, true, 1, 200, true⟩
      ⟨240040, 1700, false, false⟩).1.bodyTime = 240040 % M32 ∧
    (tick ⟨0, true, 2, 200, false⟩ ⟨70000, 1700, true, true⟩).1.bodyTime =
      70000 % M32 ∧
    (tick ⟨0, false, 2, 200, false⟩ ⟨70000, 1700, false, true⟩).1.bodyTime =
      (holdStep 0 70000).2 := by
  have h1 := C5_stall_behaviour ⟨160040, true, 1, 200, true⟩
    ⟨240040, 1700, false, false⟩
  have h2 := C5_stall_behaviour ⟨0, true, 2, 200, false⟩ ⟨70000, 1700, true, true⟩
  have h3 := C5_stall_behaviour ⟨0, false, 2, 200, false⟩ ⟨70000, 1700, false, true⟩
  exact ⟨(h1.1 rfl (by decide)).1, h1.2.2.2.1 rfl (by decide),
    h2.2.2.1 (by decide), h3.2.2.2.2 rfl (by decide) (by decide)⟩

/-- Claim C8: the light output of a pass is computed from the hold state as
it stood at the start of the pass — it equals `isLightOn` of the incoming
`bodyTime` and is independent of this pass's sensor inputs — and a detection
observed in a pass only sets `bodyTime` to the pass's time, so it first
affects the light output in the following pass (where it turns the light on
whenever the advance since the detection is below the hold interval). -/
theorem C8_output_ordering (s : State) (i j : Input) :
    ((tick s i).2.lightHigh = isLightOn i.nowMs s.bodyTime) ∧
    (i.nowMs = j.nowMs → (tick s i).2.lightHigh = (tick s j).2.lightHigh) ∧
    ((pirDetect s i || pongAfter s i) = true →
      (tick s i).1.bodyTime = i.nowMs % M32) ∧
    ((pirDetect s i || pongAfter s i) = true →
      usub32 j.nowMs i.nowMs < holdIntervalMillis →
      (tick (tick s i).1 j).2.lightHigh = true) := by
  refine ⟨tick_lightHigh s i, fun h => ?_, fun hd => ?_, fun hd hj => ?_⟩
  · rw [tick_lightHigh, tick_lightHigh, h]
  · rw [tick_bodyTime, hd, if_pos rfl]
  · rw [tick_lightHigh, tick_bodyTime, hd, if_pos rfl, isLightOn, isLightOnGen,
      usub32_mod_right, decide_eq_true_eq]
    exact hj

/-- Witness for C8: a pass whose PIR fires while the light is off still
outputs light off, and the following pass 10 ms later outputs light on. -/
theorem C8_output_ordering_witness :
    (tick ⟨0, true, 0, 0, false⟩ ⟨100000, 0, true, false⟩).2.lightHigh =
      isLightOn 100000 0 ∧
    (tick (tick ⟨0, true, 0, 0, false⟩ ⟨100000, 0, true, false⟩).1
      ⟨100010, 5, false, false⟩).2.lightHigh = true := by
  have h := C8_output_ordering ⟨0, true, 0, 0, false⟩ ⟨100000, 0, true, false⟩
    ⟨100010, 5, false, false⟩
  exact ⟨h.1, h.2.2.2 (by decide) (by decide)⟩

/-- Claim C9: the two detection sources are strictly OR-combined with no
precedence — a pass's final `bodyTime` is the pass's time whenever either
branch fires and the hold step's value otherwise — so a ranging-only
detection and a motion-only detection at the same time leave identical hold
state. -/
theorem C9_fusion_symmetry (s t : State) (i j : Input) :
    ((tick s i).1.bodyTime =
      if pirDetect s i || pongAfter s i then i.nowMs % M32
      else (holdStep s.bodyTime i.nowMs).2) ∧
    (pongAfter s i = true → pirDetect s i = false →
      pirDetect t j = true → i.nowMs = j.nowMs →
      (tick s i).1.bodyTime = (tick t j).1.bodyTime) := by
  refine ⟨tick_bodyTime s i, fun hq hp hd hn => ?_⟩
  rw [tick_bodyTime, tick_bodyTime, hq, hp, hd, hn]
  simp

/-- Witness for C9: a ranging-only detection (PIR pin low, latched flag
high) at `now = 70000` and a motion-only detection (PIR pin high, flag low)
at the same time produce the same `bodyTime`. -/
theorem C9_fusion_symmetry_witness :
    (tick ⟨0, false, 0, 0, true⟩ ⟨70000, 9, false, false⟩).1.bodyTime =
    (tick ⟨0, true, 0, 0, false⟩ ⟨70000, 9, true, false⟩).1.bodyTime := by
  exact (C9_fusion_symmetry ⟨0, false, 0, 0, true⟩ ⟨0, true, 0, 0, false⟩
    ⟨70000, 9, false, false⟩ ⟨70000, 9, true, false⟩).2
    (by decide) (by decide) (by decide) rfl

/-- Claim C10: at startup `bodyTime` is `0 - 1000UL * lightInterval`, i.e.
exactly `holdIntervalMillis` in the past of time zero in wraparound
arithmetic, so the first pass (at any `now` below the wrap margin) drives
the light off, and along any pass sequence in which no sensor branch fires
and consecutive passes stay below the wrap margin apart, every pass drives
the light off. -/
theorem C10_starts_off :
    (initState.bodyTime = usub32 0 holdIntervalMillis) ∧
    (usub32 0 initState.bodyTime = holdIntervalMillis) ∧
    (∀ i : Input, usub32 i.nowMs 0 < M32 - holdIntervalMillis →
      (tick initState i).2.lightHigh = false) ∧
    (∀ l : List Input, quiet 0 initState l = true →
      lightsOff initState l = true) := by
  refine ⟨rfl, by decide, fun i hi => ?_,
    fun l hl => quiet_lightsOff l 0 initState rfl hl⟩
  rw [tick_lightHigh]
  exact isLightOn_rearmed 0 i.nowMs hi

/-- Witness for C10: the first pass at `now = 0` drives the light off, and a
quiet three-pass sequence keeps it off throughout. -/
theorem C10_starts_off_witness :
    (tick initState ⟨0, 0, false, false⟩).2.lightHigh = false ∧
    lightsOff initState [⟨100, 7, false, false⟩, ⟨100000, 8, false, true⟩,
      ⟨300000, 9, false, true⟩] = true := by
  refine ⟨(C10_starts_off).2.2.1 ⟨0, 0, false, false⟩ (by decide),
    (C10_starts_off).2.2.2 [⟨100, 7, false, false⟩, ⟨100000, 8, false, true⟩,
      ⟨300000, 9, false, true⟩] (by decide)⟩

end SensorLight
